import Mathlib

/-!
Shallow embedding of the companion-bot turn-processing core
(`companion_bot.py`, served by `app.py`).

The mutable `user_profile` dictionary together with `conversation_history`
becomes an explicit `BotState` record; the Azure generator, the TextBlob
sentiment scorer and the interactive duration prompt are external
collaborators and are modelled as oracles.  Console side effects that carry
the externally visible reply (the `display` helper) are captured as a ghost
trace of `ReplyRecord`s appended to the state; attempts to call the external
generator are counted in a ghost `genCalls` field.  Interactive assessment
sub-flows (PHQ-9/GAD-7) only print diagnostics and write a `last_assessment`
field that no decision logic ever reads, so they are not part of the state.
-/

namespace CompanionBot

/-- Risk tiers, as the `risk_words` table keys. -/
inductive Risk
  | low
  | moderate
  | high
  | severe
deriving DecidableEq

/-- Problem categories returned by `detect_problem_type`. -/
inductive PType
  | relationship
  | job
  | other
deriving DecidableEq

/-- The `order` map used when escalating `risk_level`. -/
def riskOrder : Risk → Nat
  | .low => 0
  | .moderate => 1
  | .high => 2
  | .severe => 3

/-- The `risk_words["severe"]` keyword list. -/
def severeWords : List String :=
  ["suicide", "kill myself", "end it all", "no point living", "better off dead"]

/-- The `risk_words["high"]` keyword list. -/
def highWords : List String :=
  ["hopeless", "worthless", "hate myself", "can\x27t go on", "everything is wrong"]

/-- The `risk_words["moderate"]` keyword list. -/
def moderateWords : List String :=
  ["depressed", "anxious", "panic", "scared", "overwhelmed", "stressed"]

/-- The `risk_words["low"]` keyword list. -/
def lowWords : List String :=
  ["tired", "worried", "sad", "down", "upset"]

/-- Keyword list from `detect_problem_type` (relationship). -/
def relationshipKeywords : List String :=
  ["breakup", "broke up", "cheat", "cheated", "girlfriend", "boyfriend",
   "partner", "relationship", "cheating"]

/-- Keyword list from `detect_problem_type` (job). -/
def jobKeywords : List String :=
  ["fired", "laid off", "lost my job", "lost job", "betray", "boss",
   "coworker", "job", "workplace", "resign", "quit", "sacked"]

/-- ASCII lowercase of one character (Python `str.lower` on the ASCII
texts and keyword tables this program works with). -/
def toLowerC (c : Char) : Char :=
  if 65 ≤ c.toNat ∧ c.toNat ≤ 90 then Char.ofNat (c.toNat + 32) else c

/-- Python `str.lower`. -/
def lowerStr (s : String) : String := ⟨s.data.map toLowerC⟩

/-- Does `needle` occur at the head of `hay`? -/
def startsWithL : List Char → List Char → Bool
  | _, [] => true
  | [], _ :: _ => false
  | h :: hs, n :: ns => h = n && startsWithL hs ns

/-- Does `needle` occur anywhere in `hay`? -/
def containsL : List Char → List Char → Bool
  | [], needle => needle.isEmpty
  | c :: cs, needle => startsWithL (c :: cs) needle || containsL cs needle

/-- Python `needle in hay` on strings (substring membership). -/
def strContains (hay needle : String) : Bool :=
  containsL hay.data needle.data

/-- One entry of `sentiment_history` (timestamps are abstract ticks). -/
structure Sentiment where
  polarity : ℚ
  subjectivity : ℚ
  risk_level : Risk
  timestamp : Nat
deriving DecidableEq

/-- One entry of `conversation_history`. -/
structure HistEntry where
  user : String
  assistant : String
  sentiment : Option Sentiment
  stage : String
  timestamp : Nat
deriving DecidableEq

/-- The record shape rendered by `display` (and promised by `app.py`). -/
structure ReplyRecord where
  reply : String
  mood : String
  risk : String
  stage : String
  timestamp : Nat
deriving DecidableEq

/-- Constructor configuration (`app.py` passes 4 and 35; `client` says
whether the Azure client initialised). -/
structure Config where
  problem_phase_limit : Nat
  wrap_up_threshold : Nat
  client : Bool

/-- External collaborators: the TextBlob scorer and the chat-completion
generator (`none` = the API call raised). -/
structure Oracles where
  polarity : String → ℚ
  subjectivity : String → ℚ
  gen : String → Option String

/-- State: `user_profile` + `conversation_history` + ghost observation fields. -/
structure BotState where
  problem_type : Option PType
  problem_collected : Bool
  problem_collected_texts : List String
  conversation_stage : String
  message_count : Nat
  sentiment_history : List Sentiment
  risk_level : Risk
  last_assistant_reply : Option String
  duration_flagged : Bool
  problem_phase_counter : Nat
  conversation_history : List HistEntry
  now : Nat
  genCalls : Nat
  records : List ReplyRecord
deriving DecidableEq

/-- The `__init__` state of `user_profile` / `conversation_history`. -/
def initState : BotState :=
  { problem_type := none
    problem_collected := false
    problem_collected_texts := []
    conversation_stage := "companion"
    message_count := 0
    sentiment_history := []
    risk_level := .low
    last_assistant_reply := none
    duration_flagged := false
    problem_phase_counter := 0
    conversation_history := []
    now := 0
    genCalls := 0
    records := [] }

/-- First matching tier in the fixed `risk_words` iteration order
(severe, high, moderate, low); no match leaves the default `low`. -/
def classify_risk (text : String) : Risk :=
  let tl := lowerStr text
  if severeWords.any (fun w => strContains tl w) then .severe
  else if highWords.any (fun w => strContains tl w) then .high
  else if moderateWords.any (fun w => strContains tl w) then .moderate
  else if lowWords.any (fun w => strContains tl w) then .low
  else .low

/-- The escalation step `if order[current] > order[stored]: stored = current`. -/
def riskMax (r c : Risk) : Risk :=
  if riskOrder r < riskOrder c then c else r

/-- Embeds `analyze_sentiment`: append a sentiment record and escalate the stored
risk ceiling.  Returns the record plus the updated state. -/
def analyze_sentiment (orc : Oracles) (st : BotState) (text : String) :
    Sentiment × BotState :=
  let s : Sentiment :=
    { polarity := orc.polarity text
      subjectivity := orc.subjectivity text
      risk_level := classify_risk text
      timestamp := st.now }
  (s, { st with
          sentiment_history := st.sentiment_history ++ [s]
          now := st.now + 1
          risk_level := riskMax st.risk_level s.risk_level })

/-- Embeds `detect_problem_type`: relationship keywords first, then job, else other. -/
def detect_problem_type (text : String) : PType :=
  let rl := lowerStr text
  if relationshipKeywords.any (fun k => strContains rl k) then .relationship
  else if jobKeywords.any (fun k => strContains rl k) then .job
  else .other

/-- Embeds `detect_suicidal_language`: any severe-tier keyword occurs. -/
def detect_suicidal_language (text : String) : Bool :=
  let tl := lowerStr text
  severeWords.any (fun w => strContains tl w)

/-! ### Duration parsing (`parse_duration_days`)

`re.search` is embedded directly: scan start positions left to right; at
each one the pattern pieces are matched greedily (no backtracking is needed
because a digit/space run is never retried — what follows each greedy run
cannot match a character of that run's class — and no regex alternative is
a proper prefix of a later-needed one). -/

/-- Python `\s` on the relevant ASCII whitespace. -/
def isSpaceC (c : Char) : Bool :=
  c = ' ' || c = '\t' || c = '\n' || c = '\r' || c = '\x0b' || c = '\x0c'

/-- Python `\d` on ASCII digits. -/
def isDigitC (c : Char) : Bool :=
  48 ≤ c.toNat && c.toNat ≤ 57

/-- Python `str.strip()` (strip surrounding whitespace). -/
def trimStr (s : String) : String :=
  ⟨((s.data.dropWhile isSpaceC).reverse.dropWhile isSpaceC).reverse⟩

/-- Match a literal character sequence, returning the rest of the input. -/
def matchLit : List Char → List Char → Option (List Char)
  | [], cs => some cs
  | _ :: _, [] => none
  | l :: ls, c :: cs => if c = l then matchLit ls cs else none

/-- Value of a nonempty digit run (Python `int` of the captured group). -/
def digitsVal (ds : List Char) : Nat :=
  ds.foldl (fun acc c => acc * 10 + (c.toNat - 48)) 0

/-- Alternatives of the first regex's unit group, in alternation order. -/
def unitAlts : List String :=
  ["day", "days", "week", "weeks", "month", "months", "year", "years"]

/-- Alternatives of the second regex's unit group. -/
def unitAlts4 : List String :=
  ["day", "week", "month", "year"]

/-- The `word_nums` table, in alternation order of the second regex. -/
def wordNums : List (String × Nat) :=
  [("one", 1), ("two", 2), ("three", 3), ("four", 4), ("five", 5),
   ("six", 6), ("seven", 7), ("eight", 8), ("nine", 9), ("ten", 10)]

/-- Leftmost-position search: try the matcher at each suffix. -/
def searchPos (f : List Char → Option α) : List Char → Option α
  | [] => f []
  | c :: cs =>
    match f (c :: cs) with
    | some r => some r
    | none => searchPos f cs

/-- Pattern `for\s+(\d+)\s*(day|days|week|weeks|month|months|year|years)` at one
position; yields the captured number and unit group. -/
def tryNumAt (cs : List Char) : Option (Nat × String) :=
  match matchLit "for".toList cs with
  | none => none
  | some r1 =>
    if (r1.takeWhile isSpaceC).isEmpty then none
    else
      let r2 := r1.dropWhile isSpaceC
      let ds := r2.takeWhile isDigitC
      if ds.isEmpty then none
      else
        let r3 := (r2.dropWhile isDigitC).dropWhile isSpaceC
        match unitAlts.findSome? (fun u => (matchLit u.toList r3).map fun _ => u) with
        | some u => some (digitsVal ds, u)
        | none => none

/-- Pattern `for\s+(one|...|ten)\s*(day|week|month|year)s?` at one position. -/
def tryWordAt (cs : List Char) : Option (Nat × String) :=
  match matchLit "for".toList cs with
  | none => none
  | some r1 =>
    if (r1.takeWhile isSpaceC).isEmpty then none
    else
      let r2 := r1.dropWhile isSpaceC
      match wordNums.findSome?
          (fun p => (matchLit p.1.toList r2).map fun rest => (p.2, rest)) with
      | none => none
      | some nr =>
        let r4 := nr.2.dropWhile isSpaceC
        match unitAlts4.findSome? (fun u => (matchLit u.toList r4).map fun _ => u) with
        | some u => some (nr.1, u)
        | none => none

/-- The `"since ..."` idiom checks at the end of `parse_duration_days`. -/
def durIdioms (t : String) : Option Nat :=
  if strContains t "since last week" then some 7
  else if strContains t "since last month" then some 30
  else if strContains t "since yesterday" then some 1
  else none

/-- The unit-conversion `if`-chain shared by both regex branches; the final
case falls through to the idiom checks exactly as the source does. -/
def convertUnit (n : Nat) (u : String) (fallthrough : Option Nat) : Option Nat :=
  if strContains u "day" then some n
  else if strContains u "week" then some (n * 7)
  else if strContains u "month" then some (n * 30)
  else if strContains u "year" then some (n * 365)
  else fallthrough

/-- Word-number branch of `parse_duration_days` plus idiom fallthrough. -/
def durWordBranch (t : String) (cs : List Char) : Option Nat :=
  match searchPos tryWordAt cs with
  | some nu => convertUnit nu.1 nu.2 (durIdioms t)
  | none => durIdioms t

/-- Embeds `parse_duration_days`: lowercase, numeric regex first, then the
spelled-out-number regex, then the fixed idioms, else `none`. -/
def parse_duration_days (text : String) : Option Nat :=
  let t := lowerStr text
  let cs := t.toList
  match searchPos tryNumAt cs with
  | some nu => convertUnit nu.1 nu.2 (durWordBranch t cs)
  | none => durWordBranch t cs

/-! ### Templates and generator call -/

/-- The `_ai_stub` companion template for relationship problems. -/
def stubRelationship : String :=
  "I’m so sorry that happened. You didn’t deserve betrayal—your worth is not defined by their choices. Focus on small safety steps right now: breathe slowly, sip water, and let yourself feel what comes. If you\x27d like, I can suggest 3 small things to do in the next hour to feel slightly steadier."

/-- The `_ai_stub` companion template for job problems. -/
def stubJob : String :=
  "That’s a painful betrayal at work — being treated unfairly or losing a job can shake your sense of safety. Start with small steps: take a break, breathe, and if possible write down what happened in one short paragraph. I can suggest next steps for your career and emotional recovery."

/-- The `_ai_stub` generic companion template. -/
def stubGeneric : String :=
  "I hear you. That sounds really hard. I can sit with you, suggest grounding exercises, or help with a short plan to get through the next few hours."

/-- The `_ai_stub` wrap-up template. -/
def stubWrapUp : String :=
  "Here’s a short 4-step plan to move forward: 1) Ground & stabilize now 2) Short self-care (food/water/rest) 3) Journaling or assessment 4) Reach out / schedule follow-up."

/-- The `_ai_stub` assessment-prompt template. -/
def stubAssessment : String :=
  "It might help to do a brief screening like PHQ-9 (depression) or GAD-7 (anxiety). Would you like to try one now?"

/-- The `_ai_stub` default line. -/
def stubDefault : String := "I’m here with you."

/-- Embeds `_ai_stub(user_input, role_hint)`; the user input is unused by the
source's stub bodies. -/
def ai_stub (pt0 : Option PType) (role_hint : String) : String :=
  let pt := pt0.getD .other
  if role_hint = "companion" then
    if pt = .relationship then stubRelationship
    else if pt = .job then stubJob
    else stubGeneric
  else if role_hint = "wrap_up" then stubWrapUp
  else if role_hint = "assessment_prompt" then stubAssessment
  else stubDefault

/-- Embeds `call_ai`: with no client, the stub; with a client, one generator
attempt, falling back to the stub on failure.  The Boolean reports whether
an external attempt was made (ghost observation). -/
def call_ai (orc : Oracles) (cfg : Config) (st : BotState)
    (user_input : String) (role_hint : String) : String × Bool :=
  if !cfg.client then (ai_stub st.problem_type role_hint, false)
  else
    match orc.gen user_input with
    | some r => (r, true)
    | none => (ai_stub st.problem_type role_hint, true)

/-! ### Rendering (`display`) -/

/-- The substituted acknowledgement used when a reply would repeat. -/
def altReply : String :=
  "I hear you. I\x27m here. If you want, we can try a grounding exercise or make a simple plan."

/-- The literal `0.1` appearing in the mood conditional of `display`, built
without normalisation so that kernel evaluation works. -/
def tenth : ℚ := ⟨1, 10, by norm_num, by norm_num⟩

/-- Mood emoji from polarity, exactly the chained conditional in `display`:
`"😊" if p > 0.1 else "😐" if p > -0.1 else "😔"`. -/
def mood_of (p : ℚ) : String :=
  if p > tenth then "😊" else if p > -tenth then "😐" else "😔"

/-- The `risk_map` lookup (total here, so the low-tier default is dead). -/
def risk_emoji : Risk → String
  | .low => "💚"
  | .moderate => "💛"
  | .high => "🧡"
  | .severe => "🔴"

/-- The repeat-suppression step at the top of `display`:
`if last and last.strip() == text.strip(): text = alt`. -/
def shownText (last : Option String) (text : String) : String :=
  match last with
  | some l => if l ≠ "" ∧ trimStr l = trimStr text then altReply else text
  | none => text

/-- Embeds `display`: repeat-suppress against `last_assistant_reply`, emit the
reply record (the printed block), and remember the shown text. -/
def display (st : BotState) (text : String) (stage : String)
    (pol : ℚ) (rk : Risk) : BotState :=
  let shown := shownText st.last_assistant_reply text
  { st with
      records := st.records ++
        [{ reply := shown, mood := mood_of pol, risk := risk_emoji rk,
           stage := stage, timestamp := st.now }]
      now := st.now + 1
      last_assistant_reply := some shown }

/-! ### Wrap-up, focused replies, main pipeline -/

/-- The fixed wrap-up message appended by `create_action_plan_and_wrap`. -/
def wrap_msg : String :=
  "I summarized 4-5 concrete steps above. Try the first one now (grounding). If things are severe, please get immediate help."

/-- Embeds `create_action_plan_and_wrap`: append the wrap message to history tagged
`wrap_up`, render it, then reset the problem-cycle fields.  The printed
4–5 step plan is console-only and leaves no state. -/
def create_action_plan_and_wrap (st : BotState) : BotState :=
  let st :=
    { st with
        conversation_history := st.conversation_history ++
          [{ user := "[action_plan]", assistant := wrap_msg, sentiment := none,
             stage := "wrap_up", timestamp := st.now }]
        now := st.now + 1 }
  let st := display st wrap_msg "wrap_up" 0 st.risk_level
  { st with
      problem_collected := false
      problem_collected_texts := []
      problem_phase_counter := 0
      message_count := 0
      conversation_stage := "companion" }

/-- Focused-reply template for relationship problems (inline in
`focused_companion_reply`, distinct from the stub's). -/
def focusedRelationship : String :=
  "I’m so sorry. That was a betrayal, and you didn’t deserve it. Right now, focus on one small thing: breathe slowly for the next 2 minutes and put on something that comforts you. Afterwards, if you want, we can outline 3 things to do in the next 24 hours to support yourself."

/-- Focused-reply template for job problems. -/
def focusedJob : String :=
  "That’s a really unfair situation — workplaces can be brutal. Take a short break, write down what happened in one paragraph, and then we can map immediate steps: emotional stabilization, documenting the event, and exploring next job options."

/-- Embeds `focused_companion_reply`: bump the phase counter; on suicidal language
run the interactive crisis sub-flow (console only) and return; otherwise
choose the reply (generator when a client exists, else templates), record
the turn, render it, and wrap up when the counter reaches the limit. -/
def focused_companion_reply (orc : Oracles) (cfg : Config) (st : BotState)
    (user_input : String) (sent : Sentiment) : BotState :=
  let st := { st with problem_phase_counter := st.problem_phase_counter + 1 }
  if detect_suicidal_language user_input then st
  else
    let pr :=
      if cfg.client then call_ai orc cfg st user_input "companion"
      else if st.problem_type = some .relationship then (focusedRelationship, false)
      else if st.problem_type = some .job then (focusedJob, false)
      else (ai_stub st.problem_type "companion", false)
    let st :=
      { st with
          conversation_history := st.conversation_history ++
            [{ user := user_input, assistant := pr.1, sentiment := some sent,
               stage := "companion", timestamp := st.now }]
          now := st.now + 1
          message_count := st.message_count + 1
          genCalls := st.genCalls + (if pr.2 then 1 else 0) }
    let st := display st pr.1 "companion" sent.polarity sent.risk_level
    if st.problem_phase_counter ≥ cfg.problem_phase_limit then
      create_action_plan_and_wrap st
    else st

/-- The fixed assistant text stored on the crisis path. -/
def crisisAssistant : String := "[crisis_handled]"

/-- Embeds `handle_user_input`: sentiment first; then the crisis short-circuit
(interactive duration prompt and escalation are console-only — the state
effect is the tagged history append); then problem collection falling
through to a focused reply; then focused replies until the phase limit,
after which the wrap-up runs. -/
def handle_user_input (orc : Oracles) (cfg : Config) (st : BotState)
    (user_input : String) : BotState :=
  let p := analyze_sentiment orc st user_input
  let sent := p.1
  let st := p.2
  if detect_suicidal_language user_input then
    { st with
        conversation_history := st.conversation_history ++
          [{ user := user_input, assistant := crisisAssistant,
             sentiment := some sent, stage := "crisis", timestamp := st.now }]
        now := st.now + 1 }
  else if st.problem_collected = false then
    let st :=
      { st with
          problem_type := some (detect_problem_type user_input)
          problem_collected := true
          problem_collected_texts := st.problem_collected_texts ++ [user_input] }
    let st :=
      { st with duration_flagged :=
          match parse_duration_days user_input with
          | some d => if 14 ≤ d then true else st.duration_flagged
          | none => st.duration_flagged }
    let st := { st with problem_phase_counter := 0 }
    focused_companion_reply orc cfg st user_input sent
  else
    if st.problem_phase_counter < cfg.problem_phase_limit then
      focused_companion_reply orc cfg st user_input sent
    else
      create_action_plan_and_wrap st

/-- Embeds `run_once_text`: calls `handle_user_input` and — like the Python
function, whose body has no `return` — produces `None` as its value. -/
def run_once_text (orc : Oracles) (cfg : Config) (st : BotState)
    (text : String) : BotState × Option ReplyRecord :=
  (handle_user_input orc cfg st text, none)

/-- Embeds the app's `send_message`: forwards the `run_once_text` value directly as
the HTTP response body. -/
def send_message (orc : Oracles) (cfg : Config) (st : BotState)
    (text : String) : Option ReplyRecord :=
  (run_once_text orc cfg st text).2

/-- A whole session: fold `handle_user_input` over the turn texts. -/
def runTurns (orc : Oracles) (cfg : Config) (st : BotState)
    (texts : List String) : BotState :=
  texts.foldl (handle_user_input orc cfg) st

/-- Maximum risk tier occurring in a sentiment history (low if empty). -/
def maxRiskOf (l : List Sentiment) : Risk :=
  l.foldl (fun acc s => riskMax acc s.risk_level) .low

/-- Number of wrap-ups recorded in the conversation history. -/
def wrapCount (st : BotState) : Nat :=
  (st.conversation_history.filter (fun e => e.stage == "wrap_up")).length

/-- The reply text of the most recently rendered record, if any. -/
def lastReply (st : BotState) : Option String :=
  (st.records.getLast?).map ReplyRecord.reply

/-- Degenerate oracles for concrete evaluations. -/
def trivOracles : Oracles :=
  { polarity := fun _ => 0, subjectivity := fun _ => 0, gen := fun _ => none }

/-- The configuration `app.py` constructs, with no Azure client. -/
def defaultCfg : Config :=
  { problem_phase_limit := 4, wrap_up_threshold := 35, client := false }

/-- Configuration as constructed by the app, with phase limit 1. -/
def cfgLimit1 : Config :=
  { problem_phase_limit := 1, wrap_up_threshold := 35, client := false }

/-- Oracles whose generator succeeds and always returns exactly the fixed
acknowledgement text that repeat suppression would substitute. -/
def genAltOracles : Oracles :=
  { polarity := fun _ => 0, subjectivity := fun _ => 0,
    gen := fun _ => some altReply }

/-- Configuration as constructed by the app, with a live generator client. -/
def cfgClient : Config :=
  { problem_phase_limit := 4, wrap_up_threshold := 35, client := true }

/-- Configuration as constructed by the app, with phase limit 2. -/
def cfgLimit2 : Config :=
  { problem_phase_limit := 2, wrap_up_threshold := 35, client := false }

/-! ## Helper lemmas -/

/-- A text matching the severe lexicon classifies as severe risk (both
functions test the same `risk_words["severe"]` list, severe first). -/
theorem classify_risk_of_suicidal {t : String}
    (h : detect_suicidal_language t = true) : classify_risk t = Risk.severe := by
  simp only [detect_suicidal_language] at h
  simp [classify_risk, h]

/-- Escalating to severe always yields severe. -/
theorem riskMax_severe (r : Risk) : riskMax r Risk.severe = Risk.severe := by
  cases r <;> decide

/-- Escalation never decreases the stored tier. -/
theorem riskOrder_le_riskMax (r c : Risk) :
    riskOrder r ≤ riskOrder (riskMax r c) := by
  cases r <;> cases c <;> decide

/-- One turn: unfolding a session by one processed text. -/
theorem runTurns_cons (orc : Oracles) (cfg : Config) (st : BotState)
    (t : String) (ts : List String) :
    runTurns orc cfg st (t :: ts) =
      runTurns orc cfg (handle_user_input orc cfg st t) ts := rfl

/-- An empty session leaves the state unchanged. -/
theorem runTurns_nil (orc : Oracles) (cfg : Config) (st : BotState) :
    runTurns orc cfg st [] = st := rfl

/-- Every control path of a turn appends exactly the one sentiment record
built by `analyze_sentiment` and sets `risk_level` by the escalation merge;
no later step of the turn touches either field. -/
theorem handle_risk_sentiment (orc : Oracles) (cfg : Config) (st : BotState)
    (t : String) :
    (handle_user_input orc cfg st t).risk_level =
      riskMax st.risk_level (classify_risk t) ∧
    (handle_user_input orc cfg st t).sentiment_history =
      st.sentiment_history ++
        [{ polarity := orc.polarity t, subjectivity := orc.subjectivity t,
           risk_level := classify_risk t, timestamp := st.now }] := by
  unfold handle_user_input focused_companion_reply create_action_plan_and_wrap
    display analyze_sentiment
  dsimp only
  constructor <;> (repeat' split) <;> rfl

/-- A turn never lets the phase counter reach the limit: the wrap-up inside
`focused_companion_reply` resets it before control returns. -/
theorem handle_counter_lt (orc : Oracles) (cfg : Config) (st : BotState)
    (t : String) (hlim : 1 ≤ cfg.problem_phase_limit)
    (h : st.problem_phase_counter < cfg.problem_phase_limit) :
    (handle_user_input orc cfg st t).problem_phase_counter <
      cfg.problem_phase_limit := by
  unfold handle_user_input focused_companion_reply create_action_plan_and_wrap
    display analyze_sentiment
  dsimp only
  repeat' split
  all_goals simp_all
  all_goals omega

/-- Folding the escalation merge over an extended history. -/
theorem maxRiskOf_append_one (l : List Sentiment) (s : Sentiment) :
    maxRiskOf (l ++ [s]) = riskMax (maxRiskOf l) s.risk_level := by
  simp [maxRiskOf, List.foldl_append]

/-- The risk ceiling always equals the maximum tier in the sentiment
history, for every state reachable by a run. -/
theorem runTurns_risk_inv (orc : Oracles) (cfg : Config) :
    ∀ (texts : List String) (st : BotState),
      st.risk_level = maxRiskOf st.sentiment_history →
      (runTurns orc cfg st texts).risk_level =
        maxRiskOf (runTurns orc cfg st texts).sentiment_history := by
  intro texts
  induction texts with
  | nil => intro st h; exact h
  | cons t ts ih =>
    intro st h
    rw [runTurns_cons]
    apply ih
    rw [(handle_risk_sentiment orc cfg st t).1,
        (handle_risk_sentiment orc cfg st t).2, maxRiskOf_append_one, h]

/-- The records emitted by one `display` call. -/
theorem display_records (st : BotState) (x g : String) (p : ℚ) (r : Risk) :
    (display st x g p r).records = st.records ++
      [{ reply := shownText st.last_assistant_reply x, mood := mood_of p,
         risk := risk_emoji r, stage := g, timestamp := st.now }] := rfl

/-- Lemma: `display` remembers the shown text for repeat suppression. -/
theorem display_last (st : BotState) (x g : String) (p : ℚ) (r : Risk) :
    (display st x g p r).last_assistant_reply =
      some (shownText st.last_assistant_reply x) := rfl

/-- The reply of the record just rendered. -/
theorem lastReply_display (st : BotState) (x g : String) (p : ℚ) (r : Risk) :
    lastReply (display st x g p r) =
      some (shownText st.last_assistant_reply x) := by
  rw [lastReply, display_records]
  simp

/-- Repeat suppression either passes the text through or substitutes the
fixed acknowledgement. -/
theorem shownText_cases (last : Option String) (t : String) :
    shownText last t = t ∨ shownText last t = altReply := by
  cases last with
  | none => exact Or.inl rfl
  | some l =>
    by_cases h : l ≠ "" ∧ trimStr l = trimStr t
    · exact Or.inr (if_pos h)
    · exact Or.inl (if_neg h)

/-! ## Claims -/

/-- C1: the claim says `run_once_text` (serving POST `/message`) returns a
well-formed ReplyRecord for every input.  The Python function body has no
`return` statement, so both it and `send_message` produce `None` for every
input and every state — the rendered record only ever reaches the console.
This contradicts the docstring of `send_message`, which promises a JSON body
`{reply, mood, risk, stage}`. -/
theorem run_once_text_returns_none (orc : Oracles) (cfg : Config)
    (st : BotState) (text : String) :
    (run_once_text orc cfg st text).2 = none ∧
    send_message orc cfg st text = none :=
  ⟨rfl, rfl⟩

/-- C2: on any text containing a severe-tier keyword, regardless of prior
state, the turn takes the crisis short-circuit: it appends exactly one
history entry holding the fixed crisis message tagged `stage=crisis`,
escalates `risk_level` to severe, and returns with no phase-counter
increment, no generator attempt, no rendered record, and no wrap-up. -/
theorem crisis_short_circuit (orc : Oracles) (cfg : Config) (st : BotState)
    (text : String) (h : detect_suicidal_language text = true) :
    (handle_user_input orc cfg st text).conversation_history =
      st.conversation_history ++
        [{ user := text, assistant := crisisAssistant,
           sentiment := some { polarity := orc.polarity text,
                               subjectivity := orc.subjectivity text,
                               risk_level := Risk.severe, timestamp := st.now },
           stage := "crisis", timestamp := st.now + 1 }] ∧
    (handle_user_input orc cfg st text).risk_level = Risk.severe ∧
    (handle_user_input orc cfg st text).problem_phase_counter =
      st.problem_phase_counter ∧
    (handle_user_input orc cfg st text).problem_collected =
      st.problem_collected ∧
    (handle_user_input orc cfg st text).problem_type = st.problem_type ∧
    (handle_user_input orc cfg st text).message_count = st.message_count ∧
    (handle_user_input orc cfg st text).genCalls = st.genCalls ∧
    (handle_user_input orc cfg st text).records = st.records := by
  have hc := classify_risk_of_suicidal h
  simp [handle_user_input, analyze_sentiment, h, hc, riskMax_severe]

/-- Witness for C2 at the spec's own crisis example. -/
theorem crisis_short_circuit_witness :
    (handle_user_input trivOracles defaultCfg initState
        "I want to end it all").risk_level = Risk.severe ∧
    (handle_user_input trivOracles defaultCfg initState
        "I want to end it all").problem_phase_counter =
      initState.problem_phase_counter :=
  ⟨(crisis_short_circuit trivOracles defaultCfg initState
      "I want to end it all" (by decide)).2.1,
   (crisis_short_circuit trivOracles defaultCfg initState
      "I want to end it all" (by decide)).2.2.1⟩

/-- C4 counterexample: run one turn with phase limit 1 so that a wrap-up
fires inside the turn (the history records it); immediately afterwards
`problem_type` is still `relationship` — the wrap-up reset does not touch
`problem_type`, contradicting the claim that it becomes unset. -/
theorem wrap_keeps_problem_type_cex :
    wrapCount (handle_user_input trivOracles cfgLimit1 initState
      "my girlfriend cheated on me") = 1 ∧
    (handle_user_input trivOracles cfgLimit1 initState
      "my girlfriend cheated on me").problem_type = some PType.relationship := by
  decide

/-- C4 amended: wrap-up resets `problem_collected`, `problem_phase_counter`,
`message_count` and the collected texts (and the stage back to companion)
while leaving `problem_type` at its previous value and preserving
`risk_level`, `sentiment_history`, and the whole prior conversation history
(to which only the wrap message is appended). -/
theorem wrap_up_frame (st : BotState) :
    (create_action_plan_and_wrap st).problem_collected = false ∧
    (create_action_plan_and_wrap st).problem_phase_counter = 0 ∧
    (create_action_plan_and_wrap st).message_count = 0 ∧
    (create_action_plan_and_wrap st).problem_collected_texts = [] ∧
    (create_action_plan_and_wrap st).conversation_stage = "companion" ∧
    (create_action_plan_and_wrap st).problem_type = st.problem_type ∧
    (create_action_plan_and_wrap st).risk_level = st.risk_level ∧
    (create_action_plan_and_wrap st).sentiment_history = st.sentiment_history ∧
    (create_action_plan_and_wrap st).conversation_history =
      st.conversation_history ++
        [{ user := "[action_plan]", assistant := wrap_msg, sentiment := none,
           stage := "wrap_up", timestamp := st.now }] := by
  simp [create_action_plan_and_wrap, display]

/-- C6: problem classification checks relationship keywords first (so a
relationship match wins even over a simultaneous job match), then job
keywords, and yields `other` when neither matches; and the end-to-end run of
`"my girlfriend cheated on me"` on a fresh session sets
`problem_type=relationship`, `phase_counter=1`, and renders one companion
record. -/
theorem problem_classification_order :
    (∀ t, relationshipKeywords.any (fun k => strContains (lowerStr t) k) = true →
        detect_problem_type t = PType.relationship) ∧
    (∀ t, relationshipKeywords.any (fun k => strContains (lowerStr t) k) = false →
        jobKeywords.any (fun k => strContains (lowerStr t) k) = true →
        detect_problem_type t = PType.job) ∧
    (∀ t, relationshipKeywords.any (fun k => strContains (lowerStr t) k) = false →
        jobKeywords.any (fun k => strContains (lowerStr t) k) = false →
        detect_problem_type t = PType.other) ∧
    ((handle_user_input trivOracles defaultCfg initState
        "my girlfriend cheated on me").problem_type = some PType.relationship ∧
     (handle_user_input trivOracles defaultCfg initState
        "my girlfriend cheated on me").problem_phase_counter = 1 ∧
     (handle_user_input trivOracles defaultCfg initState
        "my girlfriend cheated on me").records.map ReplyRecord.stage =
       ["companion"]) := by
  refine ⟨fun t h => ?_, fun t h1 h2 => ?_, fun t h1 h2 => ?_, by decide⟩ <;>
    simp [detect_problem_type, *]

/-- Witness for C6: a job-keyword text with no relationship keyword. -/
theorem problem_classification_order_witness :
    detect_problem_type "my boss fired me" = PType.job :=
  problem_classification_order.2.1 "my boss fired me" (by decide) (by decide)

/-- C7: the duration parser on the spec's examples plus one instance of
every recognized form — digit and spelled-out numbers for each unit, the
three fixed idioms, case-insensitivity, matches not at the start of the
text, and a no-match input yielding `none`. -/
theorem parse_duration_days_spec :
    parse_duration_days "for 2 weeks" = some 14 ∧
    parse_duration_days "for three months" = some 90 ∧
    parse_duration_days "since last month" = some 30 ∧
    parse_duration_days "I feel okay" = none ∧
    parse_duration_days "for 1 day" = some 1 ∧
    parse_duration_days "for 12 days" = some 12 ∧
    parse_duration_days "for 3 weeks" = some 21 ∧
    parse_duration_days "for 2 months" = some 60 ∧
    parse_duration_days "for 2 years" = some 730 ∧
    parse_duration_days "for one week" = some 7 ∧
    parse_duration_days "for ten years" = some 3650 ∧
    parse_duration_days "since last week" = some 7 ∧
    parse_duration_days "since yesterday" = some 1 ∧
    parse_duration_days "FOR 2 Weeks" = some 14 ∧
    parse_duration_days "I have been sad for 3 days" = some 3 := by
  decide

/-- C8 counterexample: the claim says polarity `-0.1` itself renders the
neutral indicator; the code's `p > -0.1` test is strict, so `-0.1` falls
through to the negative indicator. -/
theorem mood_boundary_cex : ¬ (mood_of (-tenth) = "😐") := by decide

/-- C8 amended: polarity strictly above `0.1` is positive, polarity in the
half-open interval `(-0.1, 0.1]` (so including the boundary `0.1` but not
`-0.1`) is neutral, and polarity at or below `-0.1` is negative. -/
theorem mood_mapping_amended (p : ℚ) :
    (tenth < p → mood_of p = "😊") ∧
    (-tenth < p → p ≤ tenth → mood_of p = "😐") ∧
    (p ≤ -tenth → mood_of p = "😔") := by
  have hneg : -tenth < tenth := by decide
  refine ⟨fun h => ?_, fun h1 h2 => ?_, fun h => ?_⟩ <;> unfold mood_of
  · rw [if_pos h]
  · rw [if_neg (not_lt.mpr h2), if_pos h1]
  · rw [if_neg (not_lt.mpr (le_of_lt (lt_of_le_of_lt h hneg))),
        if_neg (not_lt.mpr h)]

/-- Witness for C8's amended mapping at polarity `0`, `0.1`, and `-0.1`. -/
theorem mood_mapping_amended_witness :
    mood_of 0 = "😐" ∧ mood_of tenth = "😐" ∧ mood_of (-tenth) = "😔" :=
  ⟨(mood_mapping_amended 0).2.1 (by decide) (by decide),
   (mood_mapping_amended tenth).2.1 (by decide) (by decide),
   (mood_mapping_amended (-tenth)).2.2 (by decide)⟩

/-- C3: every turn escalates `risk_level` by `max` with the newly classified
tier (so it never decreases across turns of a session), and at every point
of a session started from the initial state it equals the maximum tier ever
observed in `sentiment_history`. -/
theorem risk_level_monotone_max :
    (∀ (orc : Oracles) (cfg : Config) (st : BotState) (t : String),
      (handle_user_input orc cfg st t).risk_level =
        riskMax st.risk_level (classify_risk t) ∧
      riskOrder st.risk_level ≤
        riskOrder (handle_user_input orc cfg st t).risk_level) ∧
    (∀ (orc : Oracles) (cfg : Config) (texts : List String),
      (runTurns orc cfg initState texts).risk_level =
        maxRiskOf (runTurns orc cfg initState texts).sentiment_history) := by
  refine ⟨fun orc cfg st t => ⟨(handle_risk_sentiment orc cfg st t).1, ?_⟩,
          fun orc cfg texts => runTurns_risk_inv orc cfg texts initState rfl⟩
  rw [(handle_risk_sentiment orc cfg st t).1]
  exact riskOrder_le_riskMax st.risk_level (classify_risk t)

/-- C10: with any phase limit of at least 1, after every completed turn of
a session started from the initial state the phase counter is strictly
below the limit — a caller never observes a counter at or past the limit
between turns. -/
theorem phase_counter_lt_limit (orc : Oracles) (cfg : Config)
    (hlim : 1 ≤ cfg.problem_phase_limit) (texts : List String) :
    (runTurns orc cfg initState texts).problem_phase_counter <
      cfg.problem_phase_limit := by
  have main : ∀ (ts : List String) (st : BotState),
      st.problem_phase_counter < cfg.problem_phase_limit →
      (runTurns orc cfg st ts).problem_phase_counter <
        cfg.problem_phase_limit := by
    intro ts
    induction ts with
    | nil => intro st h; exact h
    | cons t ts ih =>
      intro st h
      rw [runTurns_cons]
      exact ih _ (handle_counter_lt orc cfg st t hlim h)
  exact main texts initState (show 0 < cfg.problem_phase_limit by omega)

/-- Witness for C10: limit 1, two turns (the first wraps immediately). -/
theorem phase_counter_lt_limit_witness :
    (runTurns trivOracles cfgLimit1 initState
      ["my girlfriend cheated on me", "hello"]).problem_phase_counter <
      cfgLimit1.problem_phase_limit :=
  phase_counter_lt_limit trivOracles cfgLimit1 (by decide)
    ["my girlfriend cheated on me", "hello"]

/-- C9 counterexample: two consecutive turns whose chosen (generator) reply
text is byte-identical — both are the fixed acknowledgement — render the
SAME reply value twice, because the substitute equals the repeated text.
This falsifies the claim that byte-identical consecutive chosen replies
always produce two different `reply` values. -/
theorem repeat_suppression_cex :
    (runTurns genAltOracles cfgClient initState ["hello", "hi"]).records.map
      ReplyRecord.reply = [altReply, altReply] := by
  decide

/-- C9 amended: whenever the chosen reply text trim-equals the previously
rendered text and that previous text is nonempty, the renderer substitutes
the fixed acknowledgement; hence rendering the same nonempty chosen text
twice in a row yields two different reply values, provided the chosen text
is not itself trim-equal to the acknowledgement. -/
theorem repeat_suppression_amended (st : BotState) (t g : String) (pol : ℚ)
    (rk : Risk) (h0 : t ≠ "") (h1 : trimStr t ≠ trimStr altReply) :
    lastReply (display (display st t g pol rk) t g pol rk) ≠
      lastReply (display st t g pol rk) := by
  have hTalt : t ≠ altReply := fun he => h1 (by rw [he])
  rw [lastReply_display, lastReply_display, display_last]
  rcases shownText_cases st.last_assistant_reply t with hs | hs <;> rw [hs]
  · have hsub : shownText (some t) t = altReply := by
      have hred : shownText (some t) t =
          if t ≠ "" ∧ trimStr t = trimStr t then altReply else t := rfl
      rw [hred, if_pos ⟨h0, rfl⟩]
    rw [hsub]
    exact fun he => hTalt (Option.some.inj he).symm
  · have hpass : shownText (some altReply) t = t := by
      have hred : shownText (some altReply) t =
          if altReply ≠ "" ∧ trimStr altReply = trimStr t then altReply else t := rfl
      rw [hred, if_neg]
      rintro ⟨-, hx⟩
      exact h1 hx.symm
    rw [hpass]
    exact fun he => hTalt (Option.some.inj he)

/-- Witness for C9's amended statement at a concrete render. -/
theorem repeat_suppression_amended_witness :
    lastReply (display (display initState "hello there" "companion" 0 Risk.low)
        "hello there" "companion" 0 Risk.low) ≠
      lastReply (display initState "hello there" "companion" 0 Risk.low) :=
  repeat_suppression_amended initState "hello there" "companion" 0 Risk.low
    (by decide) (by decide)

/-- String-literal facts used when counting wrap-up history entries. -/
theorem stage_companion_ne : ((("companion" : String) == "wrap_up")) = false := by
  decide

/-- The wrap-up tag matches itself. -/
theorem stage_wrap_eq : ((("wrap_up" : String) == "wrap_up")) = true := by
  decide

/-- A focused (non-crisis, problem-collected, counter-below-limit) turn:
the counter advances; exactly when it reaches the limit, the wrap-up fires
inside the same call, resetting the cycle and recording one wrap-up entry;
otherwise no wrap-up entry is recorded. -/
theorem handle_focused_step (orc : Oracles) (cfg : Config) (st : BotState)
    (t : String) (hs : detect_suicidal_language t = false)
    (hc : st.problem_collected = true)
    (hlt : st.problem_phase_counter < cfg.problem_phase_limit) :
    (st.problem_phase_counter + 1 < cfg.problem_phase_limit →
      (handle_user_input orc cfg st t).problem_collected = true ∧
      (handle_user_input orc cfg st t).problem_phase_counter =
        st.problem_phase_counter + 1 ∧
      wrapCount (handle_user_input orc cfg st t) = wrapCount st) ∧
    (cfg.problem_phase_limit ≤ st.problem_phase_counter + 1 →
      (handle_user_input orc cfg st t).problem_collected = false ∧
      (handle_user_input orc cfg st t).problem_phase_counter = 0 ∧
      wrapCount (handle_user_input orc cfg st t) = wrapCount st + 1) := by
  constructor <;> intro hcmp
  · have hnw : ¬ (st.problem_phase_counter + 1 ≥ cfg.problem_phase_limit) := by
      omega
    simp [handle_user_input, focused_companion_reply, create_action_plan_and_wrap,
      display, analyze_sentiment, wrapCount, hs, hc, hlt, hnw,
      stage_companion_ne, stage_wrap_eq, List.filter_append]
  · have hyw : st.problem_phase_counter + 1 ≥ cfg.problem_phase_limit := hcmp
    simp [handle_user_input, focused_companion_reply, create_action_plan_and_wrap,
      display, analyze_sentiment, wrapCount, hs, hc, hlt, hyw,
      stage_companion_ne, stage_wrap_eq, List.filter_append]

/-- A non-crisis turn on a fresh (not-yet-collected) problem: the problem is
collected and the text is processed as phase 1; with limit 1 the wrap-up
fires in the same call. -/
theorem handle_collect_step (orc : Oracles) (cfg : Config) (st : BotState)
    (t : String) (hs : detect_suicidal_language t = false)
    (hnc : st.problem_collected = false) :
    (1 < cfg.problem_phase_limit →
      (handle_user_input orc cfg st t).problem_collected = true ∧
      (handle_user_input orc cfg st t).problem_phase_counter = 1 ∧
      wrapCount (handle_user_input orc cfg st t) = wrapCount st) ∧
    (cfg.problem_phase_limit ≤ 1 →
      (handle_user_input orc cfg st t).problem_collected = false ∧
      (handle_user_input orc cfg st t).problem_phase_counter = 0 ∧
      wrapCount (handle_user_input orc cfg st t) = wrapCount st + 1) := by
  constructor <;> intro hcmp
  · have hnw : ¬ ((0:Nat) + 1 ≥ cfg.problem_phase_limit) := by omega
    simp [handle_user_input, focused_companion_reply, create_action_plan_and_wrap,
      display, analyze_sentiment, wrapCount, hs, hnc, hnw,
      stage_companion_ne, stage_wrap_eq, List.filter_append]
  · have hyw : (0:Nat) + 1 ≥ cfg.problem_phase_limit := by omega
    simp [handle_user_input, focused_companion_reply, create_action_plan_and_wrap,
      display, analyze_sentiment, wrapCount, hs, hnc, hyw,
      stage_companion_ne, stage_wrap_eq, List.filter_append]

/-- Driving an active focused phase to its end: if the counter plus the
number of remaining non-crisis turns exactly meets the limit, the last of
those turns wraps up (counter reset, problem released, exactly one new
wrap-up), and no earlier proper prefix of them records any wrap-up. -/
theorem focused_run (orc : Oracles) (cfg : Config) :
    ∀ (inputs : List String) (st : BotState),
      st.problem_collected = true →
      (∀ t ∈ inputs, detect_suicidal_language t = false) →
      st.problem_phase_counter + inputs.length = cfg.problem_phase_limit →
      st.problem_phase_counter < cfg.problem_phase_limit →
      ((runTurns orc cfg st inputs).problem_collected = false ∧
       (runTurns orc cfg st inputs).problem_phase_counter = 0 ∧
       wrapCount (runTurns orc cfg st inputs) = wrapCount st + 1) ∧
      (∀ pre suf, pre ++ suf = inputs → suf ≠ [] →
        wrapCount (runTurns orc cfg st pre) = wrapCount st) := by
  intro inputs
  induction inputs with
  | nil =>
    intro st _ _ hlen hlt
    rw [List.length_nil] at hlen
    omega
  | cons t ts ih =>
    intro st hc hns hlen hlt
    have hst := handle_focused_step orc cfg st t (hns t (by simp)) hc hlt
    by_cases hmore : st.problem_phase_counter + 1 < cfg.problem_phase_limit
    · -- more turns remain: this turn stays focused
      obtain ⟨hc1, hn1, hw1⟩ := hst.1 hmore
      have hts : ts ≠ [] := by
        intro he
        rw [he] at hlen
        simp at hlen
        omega
      have ihk := ih (handle_user_input orc cfg st t) hc1
        (fun u hu => hns u (by simp [hu])) (by rw [hn1]; simp at hlen ⊢; omega)
        (by omega)
      refine ⟨?_, ?_⟩
      · rw [runTurns_cons]
        rw [hw1] at ihk
        exact ihk.1
      · intro pre suf hps hsuf
        cases pre with
        | nil => rw [runTurns_nil]
        | cons p ps =>
          have hpt : p = t := by
            have := congrArg (fun l => l.head?) hps
            simpa using this
          have hrest : ps ++ suf = ts := by
            rw [hpt] at hps
            simpa using hps
          subst hpt
          rw [runTurns_cons]
          rw [ihk.2 ps suf hrest hsuf, hw1]
    · -- this is the last allowed focused turn: the wrap fires now
      have hlast : cfg.problem_phase_limit ≤ st.problem_phase_counter + 1 := by
        omega
      have hts : ts = [] := by
        rw [List.length_cons] at hlen
        have hlen0 : ts.length = 0 := by omega
        exact List.length_eq_zero.mp hlen0
      obtain ⟨hc1, hn1, hw1⟩ := hst.2 hlast
      subst hts
      refine ⟨⟨hc1, hn1, hw1⟩, ?_⟩
      · intro pre suf hps hsuf
        cases pre with
        | nil => rw [runTurns_nil]
        | cons p ps =>
          exfalso
          have : ps ++ suf = [] := by
            have := congrArg (fun l => l.tail) hps
            simpa using this
          exact hsuf (List.append_eq_nil.mp this).2

/-- C5: with any phase limit N ≥ 1, a session whose problem is not yet
collected reaches wrap-up after exactly N non-crisis turns: the collecting
turn counts as phase 1, no proper prefix of the N turns records a wrap-up,
and the Nth turn performs it synchronously (one new wrap-up entry, counter
back to 0, problem released). -/
theorem phase_limit_reaches_wrap (orc : Oracles) (cfg : Config)
    (st : BotState) (hlim : 1 ≤ cfg.problem_phase_limit)
    (hfresh : st.problem_collected = false) (inputs : List String)
    (hlen : inputs.length = cfg.problem_phase_limit)
    (hns : ∀ t ∈ inputs, detect_suicidal_language t = false) :
    ((runTurns orc cfg st inputs).problem_collected = false ∧
     (runTurns orc cfg st inputs).problem_phase_counter = 0 ∧
     wrapCount (runTurns orc cfg st inputs) = wrapCount st + 1) ∧
    (∀ pre suf, pre ++ suf = inputs → suf ≠ [] →
      wrapCount (runTurns orc cfg st pre) = wrapCount st) := by
  cases inputs with
  | nil =>
    exfalso
    rw [List.length_nil] at hlen
    omega
  | cons t ts =>
    have hcol := handle_collect_step orc cfg st t (hns t (by simp)) hfresh
    by_cases hone : 1 < cfg.problem_phase_limit
    · obtain ⟨hc1, hn1, hw1⟩ := hcol.1 hone
      have hrun := focused_run orc cfg ts (handle_user_input orc cfg st t) hc1
        (fun u hu => hns u (by simp [hu]))
        (by rw [hn1]; simp at hlen; omega) (by omega)
      refine ⟨?_, ?_⟩
      · rw [runTurns_cons]
        rw [hw1] at hrun
        exact hrun.1
      · intro pre suf hps hsuf
        cases pre with
        | nil => rw [runTurns_nil]
        | cons p ps =>
          have hpt : p = t := by
            have := congrArg (fun l => l.head?) hps
            simpa using this
          have hrest : ps ++ suf = ts := by
            rw [hpt] at hps
            simpa using hps
          subst hpt
          rw [runTurns_cons]
          rw [hrun.2 ps suf hrest hsuf, hw1]
    · have hle : cfg.problem_phase_limit ≤ 1 := by omega
      obtain ⟨hc1, hn1, hw1⟩ := hcol.2 hle
      have hts : ts = [] := by
        rw [List.length_cons] at hlen
        have hlen0 : ts.length = 0 := by omega
        exact List.length_eq_zero.mp hlen0
      subst hts
      refine ⟨⟨hc1, hn1, hw1⟩, ?_⟩
      intro pre suf hps hsuf
      cases pre with
      | nil => rw [runTurns_nil]
      | cons p ps =>
        exfalso
        have : ps ++ suf = [] := by
          have := congrArg (fun l => l.tail) hps
          simpa using this
        exact hsuf (List.append_eq_nil.mp this).2

/-- Witness for C5: limit 2, a fresh relationship problem wraps on turn 2. -/
theorem phase_limit_reaches_wrap_witness :
    (runTurns trivOracles cfgLimit2 initState
        ["my girlfriend cheated on me", "we broke up"]).problem_phase_counter = 0 ∧
    wrapCount (runTurns trivOracles cfgLimit2 initState
        ["my girlfriend cheated on me", "we broke up"]) = wrapCount initState + 1 :=
  ⟨(phase_limit_reaches_wrap trivOracles cfgLimit2 initState (by decide) (by decide)
      ["my girlfriend cheated on me", "we broke up"] (by decide) (by decide)).1.2.1,
   (phase_limit_reaches_wrap trivOracles cfgLimit2 initState (by decide) (by decide)
      ["my girlfriend cheated on me", "we broke up"] (by decide) (by decide)).1.2.2⟩

end CompanionBot
